import Mathlib

/-!
Shallow embedding of the SehatGuru backend authentication core
(src/backend/app: utils/jwt.py, models/auth.py, models/token_blacklist.py,
middleware/auth.py, services/auth_service.py, routes/auth.py), and theorems
settling the specification claims about it.

Timestamps are modelled as `Int` seconds (Python `datetime.utcnow()` /
unix `iat`/`exp` claims). A signed JWT is modelled as its claim set paired
with the key it was signed with; `jwt.decode` succeeds exactly when the
verifying key equals the signing key, which captures HMAC signature
verification at the level of abstraction the claims need.
-/

namespace SehatGuru

deriving instance DecidableEq for Except

/-- The slice of `app/config/settings.py` the token core reads:
`JWT_SECRET_KEY`, `ACCESS_TOKEN_EXPIRE_MINUTES` (default 30),
`REFRESH_TOKEN_EXPIRE_DAYS` (default 7). -/
structure Settings where
  JWT_SECRET_KEY : String
  ACCESS_TOKEN_EXPIRE_MINUTES : Int := 30
  REFRESH_TOKEN_EXPIRE_DAYS : Int := 7
deriving Repr, DecidableEq

/-- A JWT payload dictionary. Python dict entries may be absent, and
`payload.get(k)` yields `None` for an absent key, so every field is an
`Option`. Fields: `sub`, `email`, `token_type`, `iat`, `exp`. -/
structure Claims where
  sub : Option String := none
  email : Option String := none
  token_type : Option String := none
  iat : Option Int := none
  exp : Option Int := none
deriving Repr, DecidableEq

/-- A signed wire token: the claim set together with the key used to sign
it (`jwt.encode(to_encode, key, algorithm)`). -/
structure Jwt where
  claims : Claims
  sig_key : String
deriving Repr, DecidableEq

/-- The failure kinds `jose.JWTError` carries through `utils/jwt.py`
(distinguished there only by message text):
`badSignature` — signature does not verify;
`expired` — `jose.ExpiredSignatureError`, raised by `jwt.decode` when
`exp < now`;
`missingSubject` — "Token missing subject (uid)" in `verify_token`;
`missingEmail` — "Token missing email" in `verify_password_reset_token`;
`wrongType` — "Invalid token type. Expected ..., got ...". -/
inductive JwtError where
  | badSignature
  | expired
  | missingSubject
  | missingEmail
  | wrongType
deriving Repr, DecidableEq

/-- `jose.jwt.encode(payload, key, algorithm)`: sign the payload. -/
def jwt_encode (payload : Claims) (key : String) : Jwt :=
  { claims := payload, sig_key := key }

/-- `jose.jwt.decode(token, key, algorithms)`: signature check first, then
the expiry check (jose raises `ExpiredSignatureError` iff the `exp` claim
is present and `exp < now`; an absent `exp` is not checked). -/
def jwt_decode (token : Jwt) (key : String) (now : Int) : Except JwtError Claims :=
  if token.sig_key ≠ key then
    .error .badSignature
  else
    match token.claims.exp with
    | some e => if e < now then .error .expired else .ok token.claims
    | none => .ok token.claims

/-- `create_access_token(data, expires_delta)` from `utils/jwt.py` lines
8–38: copies `data`, sets `exp = now + (expires_delta or
ACCESS_TOKEN_EXPIRE_MINUTES minutes)`, `iat = now`,
`token_type = "access"`, signs with `settings.JWT_SECRET_KEY`. -/
def create_access_token (data : Claims) (s : Settings) (now : Int)
    (expires_delta : Option Int) : Jwt :=
  let expire : Int :=
    match expires_delta with
    | some d => now + d
    | none => now + s.ACCESS_TOKEN_EXPIRE_MINUTES * 60
  jwt_encode
    { data with exp := some expire, iat := some now, token_type := some "access" }
    s.JWT_SECRET_KEY

/-- `create_refresh_token(data, expires_delta)` from `utils/jwt.py` lines
41–71: identical shape, `token_type = "refresh"`, default lifetime
`REFRESH_TOKEN_EXPIRE_DAYS` days. -/
def create_refresh_token (data : Claims) (s : Settings) (now : Int)
    (expires_delta : Option Int) : Jwt :=
  let expire : Int :=
    match expires_delta with
    | some d => now + d
    | none => now + s.REFRESH_TOKEN_EXPIRE_DAYS * 86400
  jwt_encode
    { data with exp := some expire, iat := some now, token_type := some "refresh" }
    s.JWT_SECRET_KEY

/-- `create_password_reset_token(email)` from `utils/jwt.py` lines
133–158: subject is the email, lifetime 1 hour,
`token_type = "password_reset"`. -/
def create_password_reset_token (email : String) (s : Settings) (now : Int) : Jwt :=
  jwt_encode
    { sub := some email, exp := some (now + 3600), iat := some now,
      token_type := some "password_reset" }
    s.JWT_SECRET_KEY

/-- `TokenData` from `models/auth.py` lines 33–37: the pydantic model a
successful verification returns. Its declared fields are exactly `uid`,
`email` (optional) and `token_type` — there is no `iat` field. -/
structure TokenData where
  uid : String
  email : Option String := none
  token_type : String
deriving Repr, DecidableEq

/-- The Python exception raised by reading an attribute a pydantic model
does not declare. -/
inductive PyExn where
  | attributeError
deriving Repr, DecidableEq

/-- The attribute read `current_user.iat` performed by
`middleware/auth.py` line 104. `TokenData` (models/auth.py lines 33–37)
declares no `iat` field and `verify_token` never passes one, so on a
pydantic model this read raises `AttributeError` for every instance. -/
def TokenData.getattr_iat (_ : TokenData) : Except PyExn Int :=
  .error .attributeError

/-- `verify_token(token, token_type)` from `utils/jwt.py` lines 74–108:
decode (signature, then expiry), then reject a missing `sub` claim, then
reject a `token_type` claim different from the expected kind; on success
build `TokenData(uid, email, token_type)`. The enclosing `except JWTError`
clause only rewraps the message, so the error kind is preserved. -/
def verify_token (token : Jwt) (token_type : String) (s : Settings) (now : Int) :
    Except JwtError TokenData :=
  match jwt_decode token s.JWT_SECRET_KEY now with
  | .error e => .error e
  | .ok payload =>
    match payload.sub with
    | none => .error .missingSubject
    | some uid =>
      if payload.token_type ≠ some token_type then .error .wrongType
      else .ok { uid := uid, email := payload.email, token_type := token_type }

/-- `verify_password_reset_token(token)` from `utils/jwt.py` lines
161–193: decode, reject a missing `sub` (email), reject a `token_type`
other than `"password_reset"`, return the email. -/
def verify_password_reset_token (token : Jwt) (s : Settings) (now : Int) :
    Except JwtError String :=
  match jwt_decode token s.JWT_SECRET_KEY now with
  | .error e => .error e
  | .ok payload =>
    match payload.sub with
    | none => .error .missingEmail
    | some email =>
      if payload.token_type ≠ some "password_reset" then .error .wrongType
      else .ok email

/-- The process-wide revocation store of `models/token_blacklist.py`: a
Python `set` of revoked tokens. -/
abbrev Blacklist := Finset Jwt

/-- `TokenBlacklist.add_token` (token_blacklist.py lines 15–18):
`cls._blacklist.add(token)` — set insertion. -/
def TokenBlacklist.add_token (bl : Blacklist) (token : Jwt) : Blacklist :=
  insert token bl

/-- `TokenBlacklist.is_blacklisted` (token_blacklist.py lines 20–23):
`token in cls._blacklist` — set membership. -/
def TokenBlacklist.is_blacklisted (bl : Blacklist) (token : Jwt) : Bool :=
  decide (token ∈ bl)

/-- The rejection reasons observable from `middleware/auth.py`,
distinguished by HTTP status and detail text:
`revoked` — 401 "Token has been revoked. Please login again.";
`invalidToken` — 401 "Invalid token: ..." wrapping a `JWTError`;
`userNotFound` — 404 "User not found";
`sessionInvalidated` — 401 "Your password was changed. Please login again
with your new password.";
`serverError` — 500 "Error fetching user data: ..." from the generic
`except Exception` handler. -/
inductive RejectReason where
  | revoked
  | invalidToken (e : JwtError)
  | userNotFound
  | sessionInvalidated
  | serverError
deriving Repr, DecidableEq

/-- `get_current_user` from `middleware/auth.py` lines 14–67: blacklist
check first (revoked short-circuits before cryptographic verification),
then `verify_token(token, "access")`; a `JWTError` becomes a 401. The
`token_data.uid is None` check is unreachable because `TokenData.uid` is
a required field. The ambient blacklist is passed explicitly. -/
def get_current_user (bl : Blacklist) (token : Jwt) (s : Settings) (now : Int) :
    Except RejectReason TokenData :=
  if TokenBlacklist.is_blacklisted bl token then .error .revoked
  else
    match verify_token token "access" s now with
    | .error e => .error (.invalidToken e)
    | .ok token_data => .ok token_data

/-- A Firestore user document from the `users` collection, with its
document id as `uid`. Fields the code reads with `.get(...)` may be
absent, hence `Option`. `register_user` writes `auth_provider`,
`hashed_password`, `password_changed_at`; `google_auth` writes
`auth_provider`, `photo_url`, `google_uid` but neither `hashed_password`
nor `password_changed_at`. -/
structure UserDoc where
  uid : String
  email : String
  full_name : Option String := none
  email_verified : Bool := false
  created_at : Int
  updated_at : Int
  last_login : Option Int := none
  auth_provider : Option String := none
  hashed_password : Option String := none
  password_changed_at : Option Int := none
  google_uid : Option String := none
  photo_url : Option String := none
deriving Repr, DecidableEq

/-- The external credential store: the `users` Firestore collection. -/
abbrev UsersCollection := List UserDoc

/-- `users_ref.where("email", "==", email).limit(1).get()` followed by
taking the first hit, as done throughout `services/auth_service.py`. -/
def users_where_email (users : UsersCollection) (email : String) : Option UserDoc :=
  users.find? (fun u => u.email == email)

/-- `users_ref.document(uid).get()` as done by `get_current_active_user`. -/
def document_get (users : UsersCollection) (uid : String) : Option UserDoc :=
  users.find? (fun u => u.uid == uid)

/-- `users_ref.document(uid).update(fields)`: apply the field update to
the document(s) with that id. -/
def document_update (users : UsersCollection) (uid : String)
    (f : UserDoc → UserDoc) : UsersCollection :=
  users.map (fun u => if u.uid == uid then f u else u)

/-- `get_current_active_user` from `middleware/auth.py` lines 70–150:
fetch the credential document (absent → 404); then evaluate
`if current_user.iat and user_data.get("password_changed_at"):` — reading
`current_user.iat` raises `AttributeError` (see `TokenData.getattr_iat`),
which the function's generic `except Exception` handler converts to the
500 "Error fetching user data" response. The comparison
`password_changed_at > token_issued_at → 401 session invalidated` that
follows in the source is therefore dead code; it is embedded faithfully
after the attribute read. The best-effort `email_verified` sync (lines
123–140) never alters the outcome (its exceptions are swallowed) and is
omitted. -/
def get_current_active_user (users : UsersCollection) (current_user : TokenData) :
    Except RejectReason UserDoc :=
  match document_get users current_user.uid with
  | none => .error .userNotFound
  | some user_data =>
    match current_user.getattr_iat with
    | .error _ => .error .serverError
    | .ok iat =>
      match user_data.password_changed_at with
      | some password_changed_at =>
        if iat ≠ 0 then
          if iat < password_changed_at then .error .sessionInvalidated
          else .ok user_data
        else .ok user_data
      | none => .ok user_data

/-- The per-request session guard pipeline for `/me`-style routes
(`routes/auth.py` line 80): `Depends(get_current_active_user)` which
itself depends on `get_current_user`. -/
def session_guard (bl : Blacklist) (users : UsersCollection) (token : Jwt)
    (s : Settings) (now : Int) : Except RejectReason UserDoc :=
  match get_current_user bl token s now with
  | .error e => .error e
  | .ok token_data => get_current_active_user users token_data

/-- `verify_refresh_token` from `middleware/auth.py` lines 153–198: only
`verify_token(token, "refresh")`. The ambient blacklist and credential
store are in scope for the handler (passed here explicitly) but the code
performs no blacklist lookup and no password-change check on them. -/
def verify_refresh_token (bl : Blacklist) (users : UsersCollection) (token : Jwt)
    (s : Settings) (now : Int) : Except RejectReason TokenData :=
  let _ := bl
  let _ := users
  match verify_token token "refresh" s now with
  | .error e => .error (.invalidToken e)
  | .ok token_data => .ok token_data

/-- The `/auth/logout` route (`routes/auth.py` lines 158–176): add the
presented bearer token — and only it — to the blacklist. -/
def logout (bl : Blacklist) (token : Jwt) : Blacklist :=
  TokenBlacklist.add_token bl token

/-- Modelled from the spec: `app/utils/password.py` is imported by
`services/auth_service.py` but absent from the sources; the spec only
requires a deterministic server-side password hash stored as
`hashed_password`. Any concrete deterministic function serves the claims,
which mention only "the hash of the new password". -/
def hash_password (password : String) : String :=
  "bcrypt$" ++ password

/-- Modelled from the spec: counterpart check of `hash_password` used by
`login_user` (absent `app/utils/password.py`). -/
def verify_password (plain : String) (hashed : String) : Bool :=
  hash_password plain == hashed

/-- The service-level failures of `services/auth_service.py`,
distinguished by HTTP status and detail text:
`emailAlreadyRegistered` — 400 "Email already registered";
`invalidEmailOrPassword` — 401 "Invalid email or password";
`googleSignInAccount` — 400 "This account uses Google Sign-In. Please
login with Google.";
`userNotFound` — 404 "User not found";
`googleSignInNoReset` — 400 "This account uses Google Sign-In. Password
cannot be reset.";
`resetFailed` — 400 "Password reset failed: ..." wrapping a `JWTError`. -/
inductive ServiceError where
  | emailAlreadyRegistered
  | invalidEmailOrPassword
  | googleSignInAccount
  | userNotFound
  | googleSignInNoReset
  | resetFailed (e : JwtError)
deriving Repr, DecidableEq

/-- The `Token` response model of `models/auth.py` lines 25–30. -/
structure Token where
  access_token : Jwt
  refresh_token : Jwt
  token_type : String := "bearer"
  expires_in : Int
deriving Repr, DecidableEq

/-- The Firestore document `register_user` writes
(`services/auth_service.py` lines 57–70): `auth_provider = "email"`,
`hashed_password` stored, `password_changed_at = now`. -/
def register_user_doc (new_uid full_name email password : String) (now : Int) :
    UserDoc :=
  { uid := new_uid, email := email, full_name := some full_name,
    email_verified := false, created_at := now, updated_at := now,
    auth_provider := some "email",
    hashed_password := some (hash_password password),
    password_changed_at := some now }

/-- `AuthService.register_user` (`services/auth_service.py` lines 22–95):
duplicate-email check, then Firebase user creation (external; the new id
is a parameter), then the Firestore document write. The best-effort
verification email never fails the operation and is omitted. -/
def register_user (users : UsersCollection) (new_uid full_name email password : String)
    (now : Int) : Except ServiceError (UsersCollection × UserDoc) :=
  if (users_where_email users email).isSome then .error .emailAlreadyRegistered
  else
    let user_doc := register_user_doc new_uid full_name email password now
    .ok (users ++ [user_doc], user_doc)

/-- `AuthService.login_user` (`services/auth_service.py` lines 97–173):
lookup by email (absent → 401 invalid email or password); a record with
no `hashed_password` → 400 Google-sign-in error if
`auth_provider == "google"`, else the 401; wrong password → the 401;
otherwise update `last_login`/`updated_at` and mint the access+refresh
pair. -/
def login_user (users : UsersCollection) (email password : String) (s : Settings)
    (now : Int) : Except ServiceError (UsersCollection × Token) :=
  match users_where_email users email with
  | none => .error .invalidEmailOrPassword
  | some user_data =>
    match user_data.hashed_password with
    | none =>
      if user_data.auth_provider = some "google" then .error .googleSignInAccount
      else .error .invalidEmailOrPassword
    | some stored_password =>
      if ¬ verify_password password stored_password then .error .invalidEmailOrPassword
      else
        let users1 := document_update users user_data.uid
          (fun u => { u with last_login := some now, updated_at := now })
        let token_data : Claims := { sub := some user_data.uid, email := some email }
        .ok (users1,
          { access_token := create_access_token token_data s now none,
            refresh_token := create_refresh_token token_data s now none,
            expires_in := s.ACCESS_TOKEN_EXPIRE_MINUTES * 60 })

/-- The Firestore document the new-user branch of `AuthService.google_auth`
writes (`services/auth_service.py` lines 245–257): `auth_provider =
"google"`, `email_verified = true`; it sets neither `hashed_password` nor
`password_changed_at` (absent dict keys, modelled `none`). -/
def google_auth_user_doc (uid : String) (email : String) (name : Option String)
    (google_uid : String) (picture : Option String) (now : Int) : UserDoc :=
  { uid := uid, email := email, full_name := name, email_verified := true,
    created_at := now, updated_at := now, auth_provider := some "google",
    photo_url := picture, google_uid := some google_uid }

/-- `AuthService.google_auth` after a successful assertion verification
(`services/auth_service.py` lines 189–269): login by email if a local
record exists (merge-by-email), else create the document of
`google_auth_user_doc` under the resolved id (a parameter standing for
the Firebase-created or upstream-fetched uid); then mint tokens. -/
def google_auth (users : UsersCollection) (new_uid : String) (email : String)
    (name : Option String) (google_uid : String) (picture : Option String)
    (s : Settings) (now : Int) : UsersCollection × Token :=
  let users1 :=
    match users_where_email users email with
    | some user_data =>
        document_update users user_data.uid (fun u => { u with updated_at := now })
    | none =>
        users ++ [google_auth_user_doc new_uid email name google_uid picture now]
  let resolved_uid :=
    match users_where_email users email with
    | some user_data => user_data.uid
    | none => new_uid
  let token_data : Claims := { sub := some resolved_uid, email := some email }
  (users1,
    { access_token := create_access_token token_data s now none,
      refresh_token := create_refresh_token token_data s now none,
      expires_in := s.ACCESS_TOKEN_EXPIRE_MINUTES * 60 })

/-- The mail collaborator call in `request_password_reset`:
`send_password_reset_email` bottoms out in `send_email`
(`utils/email.py` lines 8–52), which returns a `Bool` and converts every
transport exception into `False`. -/
def send_password_reset_email (email : String) (reset_token : Jwt)
    (transport_ok : Bool) : Bool :=
  let _ := email
  let _ := reset_token
  transport_ok

/-- `AuthService.request_password_reset` (`services/auth_service.py` lines
302–338): unknown email → `True` (no enumeration); otherwise issue a
reset token and hand it to the mailer, whose result is discarded; the
enclosing `except Exception` returns `True` on any failure, so every path
returns `True`. -/
def request_password_reset (users : UsersCollection) (email : String)
    (transport_ok : Bool) (s : Settings) (now : Int) : Bool :=
  match users_where_email users email with
  | none => true
  | some _ =>
    let reset_token := create_password_reset_token email s now
    let _sent := send_password_reset_email email reset_token transport_ok
    true

/-- The field update `reset_password` applies to the credential document
(`services/auth_service.py` lines 384–392): new hash, and
`password_changed_at = now` to invalidate existing sessions. -/
def reset_password_update (new_password : String) (now : Int) (u : UserDoc) :
    UserDoc :=
  { u with hashed_password := some (hash_password new_password),
           password_changed_at := some now, updated_at := now }

/-- `AuthService.reset_password` (`services/auth_service.py` lines
340–402): verify the reset token (failure → 400 wrapping the `JWTError`),
resolve the email (absent → 404), reject Google-provider accounts
(federated-only, no local password), else update the document via
`reset_password_update` (the Firebase-Auth password update is an external
side effect). Returns the updated store and `True`. -/
def reset_password (users : UsersCollection) (token : Jwt) (new_password : String)
    (s : Settings) (now : Int) : Except ServiceError (UsersCollection × Bool) :=
  match verify_password_reset_token token s now with
  | .error e => .error (.resetFailed e)
  | .ok email =>
    match users_where_email users email with
    | none => .error .userNotFound
    | some user_data =>
      if user_data.auth_provider = some "google" then .error .googleSignInNoReset
      else
        .ok (document_update users user_data.uid
              (reset_password_update new_password now), true)

/-! ## Concrete inputs used by witnesses and counterexamples -/

/-- Concrete settings used by witnesses and counterexamples. -/
def sampleSettings : Settings :=
  { JWT_SECRET_KEY := "k" }

/-- A well-signed, unexpired token whose embedded type is "refresh" but
whose subject claim is missing. -/
def c3_no_subject_token : Jwt :=
  jwt_encode
    { sub := none, token_type := some "refresh", iat := some 0, exp := some 1000 } "k"

/-- A well-signed token with subject "u1", type "refresh", expiry 10. -/
def c3_refresh_token : Jwt :=
  jwt_encode
    { sub := some "u1", token_type := some "refresh", iat := some 0, exp := some 10 } "k"

/-- A locally registered credential record for uid "u1" whose password
was changed at time 200. -/
def c1_user_doc : UserDoc :=
  { uid := "u1", email := "e", created_at := 0, updated_at := 0,
    auth_provider := some "email",
    hashed_password := some (hash_password "old"),
    password_changed_at := some 200 }

/-- An access token for "u1" issued at time 100 (before the password
change at 200 recorded in `c1_user_doc`). -/
def c1_access_token : Jwt :=
  create_access_token { sub := some "u1", email := some "e" } sampleSettings 100 none

/-- The access token of a login pair issued at time 0 for "u1". -/
def c5_access_token : Jwt :=
  create_access_token { sub := some "u1", email := some "e" } sampleSettings 0 none

/-- The refresh token paired with `c5_access_token`. -/
def c5_refresh_token : Jwt :=
  create_refresh_token { sub := some "u1", email := some "e" } sampleSettings 0 none

/-- A locally registered credential record for uid "u2". -/
def c7_user_doc : UserDoc :=
  { uid := "u2", email := "r@x", created_at := 0, updated_at := 0,
    auth_provider := some "email",
    hashed_password := some (hash_password "old"),
    password_changed_at := some 0 }

/-- A federated credential record: `auth_provider = "google"`, no
`hashed_password` (and no `password_changed_at`). -/
def c10_user_doc : UserDoc :=
  { uid := "u4", email := "g2@x", created_at := 0, updated_at := 0,
    auth_provider := some "google", google_uid := some "g" }

/-! ## Helper lemmas -/

/-- Round trip for a freshly issued access token inside its window. -/
theorem verify_create_access_eq (uid email : String) (s : Settings) (t now : Int)
    (h : now ≤ t + s.ACCESS_TOKEN_EXPIRE_MINUTES * 60) :
    verify_token (create_access_token { sub := some uid, email := some email } s t none)
        "access" s now
      = .ok { uid := uid, email := some email, token_type := "access" } := by
  have h2 : ¬ (t + s.ACCESS_TOKEN_EXPIRE_MINUTES * 60 < now) := by omega
  simp [verify_token, create_access_token, jwt_encode, jwt_decode, h2]

/-- Round trip for a freshly issued refresh token inside its window. -/
theorem verify_create_refresh_eq (uid email : String) (s : Settings) (t now : Int)
    (h : now ≤ t + s.REFRESH_TOKEN_EXPIRE_DAYS * 86400) :
    verify_token (create_refresh_token { sub := some uid, email := some email } s t none)
        "refresh" s now
      = .ok { uid := uid, email := some email, token_type := "refresh" } := by
  have h2 : ¬ (t + s.REFRESH_TOKEN_EXPIRE_DAYS * 86400 < now) := by omega
  simp [verify_token, create_refresh_token, jwt_encode, jwt_decode, h2]

/-- Round trip for a freshly issued password-reset token inside its
1-hour window. -/
theorem verify_create_reset_eq (email : String) (s : Settings) (t now : Int)
    (h : now ≤ t + 3600) :
    verify_password_reset_token (create_password_reset_token email s t) s now
      = .ok email := by
  have h2 : ¬ (t + 3600 < now) := by omega
  simp [verify_password_reset_token, create_password_reset_token, jwt_encode,
    jwt_decode, h2]

/-- Membership in the revocation store survives any later revocations. -/
theorem mem_foldl_add_token (ts : List Jwt) (bl : Blacklist) (tok : Jwt)
    (h : tok ∈ bl) : tok ∈ ts.foldl TokenBlacklist.add_token bl := by
  induction ts generalizing bl with
  | nil => exact h
  | cons t ts ih =>
    simp only [List.foldl_cons]
    exact ih _ (Finset.mem_insert_of_mem h)

/-- `get_current_user` can only reject as Revoked or InvalidToken. -/
theorem get_current_user_not_sessionInvalidated (bl : Blacklist) (tok : Jwt)
    (s : Settings) (now : Int) :
    get_current_user bl tok s now ≠ .error .sessionInvalidated := by
  unfold get_current_user
  split
  · simp
  · split <;> simp

/-- `get_current_active_user` can only reject as UserNotFound or the
500 server error: the attribute read of `iat` fails before the
password-change comparison is reached. -/
theorem get_current_active_user_not_sessionInvalidated (users : UsersCollection)
    (td : TokenData) :
    get_current_active_user users td ≠ .error .sessionInvalidated := by
  unfold get_current_active_user
  split
  · simp
  · simp [TokenData.getattr_iat]

/-- A document found under `uid` after a targeted update is the update of
a stored document with that id. -/
theorem document_get_update_eq (users : UsersCollection) (uid : String)
    (f : UserDoc → UserDoc) (d : UserDoc)
    (hd : document_get (document_update users uid f) uid = some d) :
    ∃ u, u ∈ users ∧ u.uid = uid ∧ d = f u := by
  unfold document_get document_update at hd
  have hpred := List.find?_some hd
  have hmem := List.mem_of_find?_eq_some hd
  rcases List.mem_map.mp hmem with ⟨u, hu, hgu⟩
  by_cases hc : u.uid = uid
  · refine ⟨u, hu, hc, ?_⟩
    rw [← hgu]
    simp [hc]
  · exfalso
    have hdu : d = u := by
      rw [← hgu]
      simp [hc]
    rw [hdu] at hpred
    simp at hpred
    exact hc hpred

/-! ## Claims -/

/-- C2: for every kind in {access, refresh} and every subject uid with
email, verifying a freshly issued token of that kind, expecting the same
kind, at any time within that kind's own validity window, succeeds and
returns the original subject (uid, email) with that kind. Each conjunct
assumes only its own kind's window bound. -/
theorem issue_verify_roundtrip (uid email : String) (s : Settings) (t now : Int) :
    (now ≤ t + s.ACCESS_TOKEN_EXPIRE_MINUTES * 60 →
      verify_token (create_access_token { sub := some uid, email := some email } s t none)
          "access" s now
        = .ok { uid := uid, email := some email, token_type := "access" }) ∧
    (now ≤ t + s.REFRESH_TOKEN_EXPIRE_DAYS * 86400 →
      verify_token (create_refresh_token { sub := some uid, email := some email } s t none)
          "refresh" s now
        = .ok { uid := uid, email := some email, token_type := "refresh" }) :=
  ⟨fun h_access => verify_create_access_eq uid email s t now h_access,
   fun h_refresh => verify_create_refresh_eq uid email s t now h_refresh⟩

/-- Witness for C2 at uid "u1", email "e", issued at t = 0: the access
token checked at 100 (inside its 1800 s window), and the refresh token
checked at 172800 (day 2 — inside its 604800 s window but far past the
access window). -/
theorem issue_verify_roundtrip_witness :
    ((100 : Int) ≤ 0 + sampleSettings.ACCESS_TOKEN_EXPIRE_MINUTES * 60) ∧
    ((172800 : Int) ≤ 0 + sampleSettings.REFRESH_TOKEN_EXPIRE_DAYS * 86400) ∧
    (verify_token
        (create_access_token { sub := some "u1", email := some "e" } sampleSettings 0 none)
        "access" sampleSettings 100
      = .ok { uid := "u1", email := some "e", token_type := "access" }) ∧
    (verify_token
        (create_refresh_token { sub := some "u1", email := some "e" } sampleSettings 0 none)
        "refresh" sampleSettings 172800
      = .ok { uid := "u1", email := some "e", token_type := "refresh" }) :=
  ⟨by decide, by decide,
   (issue_verify_roundtrip "u1" "e" sampleSettings 0 100).1 (by decide),
   (issue_verify_roundtrip "u1" "e" sampleSettings 0 172800).2 (by decide)⟩

/-- C3 counterexample: this well-signed, unexpired token's embedded
token_type ("refresh") differs from the expected kind ("access"), yet
verification fails with the missing-subject error, not WrongType — the
source checks the subject claim before the type claim
(utils/jwt.py lines 99–103). -/
theorem verify_wrongType_counterexample :
    verify_token c3_no_subject_token "access" sampleSettings 500
      = .error .missingSubject ∧
    verify_token c3_no_subject_token "access" sampleSettings 500
      ≠ .error .wrongType := by
  constructor
  · decide
  · decide

/-- C3 (amended): for every well-signed token carrying an expiry,
verification fails with Expired when now is past expires_at; when it is
not expired and its subject claim is present, it fails with WrongType
when its embedded token_type differs from the expected kind (with the
subject claim missing, the missing-subject error is reported instead). -/
theorem verify_expired_or_wrongType (tok : Jwt) (kind : String) (s : Settings)
    (now e : Int) (h_key : tok.sig_key = s.JWT_SECRET_KEY)
    (h_exp : tok.claims.exp = some e) :
    (e < now → verify_token tok kind s now = .error .expired) ∧
    (¬ e < now → ∀ uid, tok.claims.sub = some uid →
      tok.claims.token_type ≠ some kind →
      verify_token tok kind s now = .error .wrongType) := by
  constructor
  · intro hlt
    unfold verify_token jwt_decode
    rw [h_key, h_exp]
    simp [hlt]
  · intro hge uid hsub htype
    unfold verify_token jwt_decode
    rw [h_key, h_exp]
    simp [hge, hsub, htype]

/-- Witness for the amended C3: checked against expected kind "access",
at now = 20 (past expiry 10) it fails Expired; at now = 5 (inside the
window) it fails WrongType. -/
theorem verify_expired_or_wrongType_witness :
    verify_token c3_refresh_token "access" sampleSettings 20 = .error .expired ∧
    verify_token c3_refresh_token "access" sampleSettings 5 = .error .wrongType := by
  constructor
  · exact (verify_expired_or_wrongType c3_refresh_token "access" sampleSettings 20 10
      (by decide) (by decide)).1 (by decide)
  · exact (verify_expired_or_wrongType c3_refresh_token "access" sampleSettings 5 10
      (by decide) (by decide)).2 (by decide) "u1" (by decide) (by decide)

/-- C4: after revoking a token — and after any number of later
revocations — every session-guard check of that exact token is rejected
with Revoked; and revoking the same token twice leaves the store exactly
as revoking it once (idempotence of the set insert). -/
theorem revoked_token_rejected_and_idempotent (bl : Blacklist)
    (users : UsersCollection) (tok : Jwt) (s : Settings) (now : Int)
    (later : List Jwt) :
    session_guard
        (later.foldl TokenBlacklist.add_token (TokenBlacklist.add_token bl tok))
        users tok s now = .error .revoked ∧
    TokenBlacklist.add_token (TokenBlacklist.add_token bl tok) tok
      = TokenBlacklist.add_token bl tok := by
  constructor
  · have hmem :
        tok ∈ later.foldl TokenBlacklist.add_token (TokenBlacklist.add_token bl tok) :=
      mem_foldl_add_token later _ tok (Finset.mem_insert_self tok bl)
    unfold session_guard get_current_user TokenBlacklist.is_blacklisted
    simp [hmem]
  · unfold TokenBlacklist.add_token
    exact Finset.insert_idem tok bl

/-- C1 (code bug): `c1_access_token` was issued at 100 for user "u1"
whose `password_changed_at` is 200; checked at 150 (valid, unrevoked, the
user exists), the spec and the repository's own
`test_session_invalidation.py` expect the 401 SessionInvalidated
rejection, but the guard returns the 500 server error: reading
`current_user.iat` raises AttributeError because `TokenData` declares no
`iat` field and `verify_token` drops the claim. Moreover no run of the
session guard can ever reject with SessionInvalidated. -/
theorem session_invalidation_never_fires :
    session_guard (∅ : Blacklist) [c1_user_doc] c1_access_token sampleSettings 150
      = .error .serverError ∧
    ∀ (bl : Blacklist) (users : UsersCollection) (tok : Jwt) (s : Settings) (now : Int),
      session_guard bl users tok s now ≠ .error .sessionInvalidated := by
  constructor
  · decide
  · intro bl users tok s now h
    unfold session_guard at h
    cases hg : get_current_user bl tok s now with
    | error e =>
      rw [hg] at h
      simp at h
      subst h
      exact get_current_user_not_sessionInvalidated bl tok s now hg
    | ok td =>
      rw [hg] at h
      exact get_current_active_user_not_sessionInvalidated users td h

/-- C5: logout revokes only the presented access token: afterwards a
/me-style check of that exact token is rejected Revoked, while the paired
refresh token still verifies via `verify_refresh_token`, whose outcome is
independent of the revocation store and of the credential store (it
performs no blacklist lookup and no password-change invalidation
check). -/
theorem logout_leaves_refresh_valid (bl : Blacklist) (users : UsersCollection)
    (uid email : String) (s : Settings) (t now : Int)
    (h : now ≤ t + s.REFRESH_TOKEN_EXPIRE_DAYS * 86400) :
    get_current_user
        (logout bl (create_access_token { sub := some uid, email := some email } s t none))
        (create_access_token { sub := some uid, email := some email } s t none) s now
      = .error .revoked ∧
    verify_refresh_token
        (logout bl (create_access_token { sub := some uid, email := some email } s t none))
        users (create_refresh_token { sub := some uid, email := some email } s t none) s now
      = .ok { uid := uid, email := some email, token_type := "refresh" } ∧
    (∀ (bl₁ bl₂ : Blacklist) (users₁ users₂ : UsersCollection),
      verify_refresh_token bl₁ users₁
          (create_refresh_token { sub := some uid, email := some email } s t none) s now
        = verify_refresh_token bl₂ users₂
          (create_refresh_token { sub := some uid, email := some email } s t none) s now) := by
  refine ⟨?_, ?_, ?_⟩
  · unfold get_current_user TokenBlacklist.is_blacklisted logout TokenBlacklist.add_token
    simp
  · unfold verify_refresh_token
    rw [verify_create_refresh_eq uid email s t now h]
  · intro bl₁ bl₂ users₁ users₂
    rfl

/-- Witness for C5: login pair issued at 0, logout of the access token,
checks at 100 (inside the refresh window of 604800 s), over an empty
initial blacklist and empty store. -/
theorem logout_leaves_refresh_valid_witness :
    ((100 : Int) ≤ 0 + sampleSettings.REFRESH_TOKEN_EXPIRE_DAYS * 86400) ∧
    (get_current_user (logout ∅ c5_access_token) c5_access_token sampleSettings 100
      = .error .revoked ∧
    verify_refresh_token (logout ∅ c5_access_token) [] c5_refresh_token sampleSettings 100
      = .ok { uid := "u1", email := some "e", token_type := "refresh" } ∧
    (∀ (bl₁ bl₂ : Blacklist) (users₁ users₂ : UsersCollection),
      verify_refresh_token bl₁ users₁ c5_refresh_token sampleSettings 100
        = verify_refresh_token bl₂ users₂ c5_refresh_token sampleSettings 100)) :=
  ⟨by decide,
   logout_leaves_refresh_valid ∅ [] "u1" "e" sampleSettings 0 100 (by decide)⟩

/-- C6 (code bug): the result of a successful token verification carries
uid, email and token_type, but not issued_at: `TokenData` declares no
`iat` field and `verify_token` does not pass one, so reading issued_at
from every such value raises AttributeError instead of being available to
later checks. Concretely, `c1_access_token` verifies successfully at 150
and the resulting session value has no issued_at attribute. -/
theorem session_value_has_no_issued_at :
    verify_token c1_access_token "access" sampleSettings 150
      = .ok { uid := "u1", email := some "e", token_type := "access" } ∧
    ∀ td : TokenData, td.getattr_iat = .error .attributeError := by
  constructor
  · decide
  · intro td
    rfl

/-- C7: consuming a password-reset token rejects with the Google-provider
error when the resolved account is federated (`auth_provider = "google"`,
the accounts with no local password); otherwise it succeeds and the
stored credential ends with `hashed_password` equal to the hash of the
new password and `password_changed_at` equal to the current time. -/
theorem reset_password_behavior (users : UsersCollection)
    (email new_password : String) (s : Settings) (t now : Int) (doc : UserDoc)
    (h_window : now ≤ t + 3600)
    (h_found : users_where_email users email = some doc) :
    (doc.auth_provider = some "google" →
      reset_password users (create_password_reset_token email s t) new_password s now
        = .error .googleSignInNoReset) ∧
    (doc.auth_provider ≠ some "google" →
      reset_password users (create_password_reset_token email s t) new_password s now
        = .ok (document_update users doc.uid (reset_password_update new_password now),
               true) ∧
      ∀ d, document_get
            (document_update users doc.uid (reset_password_update new_password now))
            doc.uid = some d →
        d.hashed_password = some (hash_password new_password) ∧
        d.password_changed_at = some now) := by
  have hv := verify_create_reset_eq email s t now h_window
  constructor
  · intro hg
    unfold reset_password
    rw [hv]
    simp [h_found, hg]
  · intro hg
    refine ⟨?_, ?_⟩
    · unfold reset_password
      rw [hv]
      simp [h_found, hg]
    · intro d hd
      rcases document_get_update_eq users doc.uid _ d hd with ⟨u, _, _, hdu⟩
      subst hdu
      exact ⟨rfl, rfl⟩

/-- Witness for C7: store holding the local account `c7_user_doc`
("r@x", uid "u2"), reset token issued at 0, consumed at 50 with new
password "newpw". -/
theorem reset_password_behavior_witness :
    reset_password [c7_user_doc] (create_password_reset_token "r@x" sampleSettings 0)
        "newpw" sampleSettings 50
      = .ok (document_update [c7_user_doc] "u2" (reset_password_update "newpw" 50),
             true) :=
  ((reset_password_behavior [c7_user_doc] "r@x" "newpw" sampleSettings 0 50 c7_user_doc
      (by decide) (by decide)).2 (by decide)).1

/-- C8: requesting a password reset returns success for every store,
email, mail-transport outcome, settings and time: the result is `true` on
all paths, hence identical between a run on a store that knows the email
and a run on one that does not, and identical whether the mail transport
succeeds or fails; as a total function the operation never raises. -/
theorem request_password_reset_always_true (users₁ users₂ : UsersCollection)
    (email : String) (ok₁ ok₂ : Bool) (s₁ s₂ : Settings) (n₁ n₂ : Int) :
    request_password_reset users₁ email ok₁ s₁ n₁ = true ∧
    request_password_reset users₁ email ok₁ s₁ n₁
      = request_password_reset users₂ email ok₂ s₂ n₂ := by
  have h : ∀ (users : UsersCollection) (ok : Bool) (s : Settings) (n : Int),
      request_password_reset users email ok s n = true := by
    intro users ok s n
    unfold request_password_reset
    split <;> rfl
  exact ⟨h users₁ ok₁ s₁ n₁, (h users₁ ok₁ s₁ n₁).trans (h users₂ ok₂ s₂ n₂).symm⟩

/-- C9 counterexample: the credential document the federated-creation
path writes (`google_auth_user_doc`, services/auth_service.py lines
245–257) carries no `password_changed_at` — refuting the claim that both
creation paths set the field. -/
theorem google_doc_no_password_changed_at :
    (google_auth_user_doc "u3" "g@x" (some "N") "guid1" none 100).password_changed_at
      = none := by
  rfl

/-- C9 (amended): `password_changed_at` is set to the creation time by
the local-registration path and to the reset time on every password
change, but the federated-creation path writes its document without the
field; the session guard can therefore rely on it only for locally
registered accounts (and skips the invalidation comparison when the field
is absent). -/
theorem password_changed_at_provenance (users : UsersCollection)
    (new_uid full_name email password : String) (now : Int)
    (h : users_where_email users email = none) :
    (register_user users new_uid full_name email password now
      = .ok (users ++ [register_user_doc new_uid full_name email password now],
             register_user_doc new_uid full_name email password now)) ∧
    (register_user_doc new_uid full_name email password now).password_changed_at
      = some now ∧
    (∀ (u : UserDoc) (pw : String) (t : Int),
      (reset_password_update pw t u).password_changed_at = some t) ∧
    (∀ (uid2 gemail : String) (name : Option String) (guid : String)
        (pic : Option String) (t : Int),
      (google_auth_user_doc uid2 gemail name guid pic t).password_changed_at = none) := by
  refine ⟨?_, rfl, ?_, ?_⟩
  · unfold register_user
    simp [h]
  · intro u pw t
    rfl
  · intro uid2 gemail name guid pic t
    rfl

/-- Witness for the amended C9: registration of "n@x" as uid "u9" at
time 7 over the empty store. -/
theorem password_changed_at_provenance_witness :
    (register_user [] "u9" "Name" "n@x" "pw" 7
      = .ok ([] ++ [register_user_doc "u9" "Name" "n@x" "pw" 7],
             register_user_doc "u9" "Name" "n@x" "pw" 7)) ∧
    (register_user_doc "u9" "Name" "n@x" "pw" 7).password_changed_at = some 7 :=
  ⟨(password_changed_at_provenance [] "u9" "Name" "n@x" "pw" 7 rfl).1,
   (password_changed_at_provenance [] "u9" "Name" "n@x" "pw" 7 rfl).2.1⟩

/-- C10: password login against a record with no `hashed_password` and
`auth_provider = "google"` fails, for every supplied password, with the
Google-sign-in error — a 400 distinct from the uniform 401 invalid email
or password — revealing that the account exists and uses federated
sign-in. -/
theorem login_google_account_distinct_error (users : UsersCollection)
    (email password : String) (s : Settings) (now : Int) (doc : UserDoc)
    (h_found : users_where_email users email = some doc)
    (h_nopw : doc.hashed_password = none)
    (h_prov : doc.auth_provider = some "google") :
    login_user users email password s now = .error .googleSignInAccount ∧
    ServiceError.googleSignInAccount ≠ ServiceError.invalidEmailOrPassword := by
  constructor
  · unfold login_user
    rw [h_found]
    simp [h_nopw, h_prov]
  · simp

/-- Witness for C10: the federated record `c10_user_doc` ("g2@x"), an
arbitrary concrete password. -/
theorem login_google_account_distinct_error_witness :
    login_user [c10_user_doc] "g2@x" "anypw" sampleSettings 0
      = .error .googleSignInAccount ∧
    ServiceError.googleSignInAccount ≠ ServiceError.invalidEmailOrPassword :=
  login_google_account_distinct_error [c10_user_doc] "g2@x" "anypw" sampleSettings 0
    c10_user_doc (by decide) rfl rfl

end SehatGuru
